import Mathlib

/-!
Verification of the JIRA ticket-creation tool (`jira-tools` + `jira-client`).

The development shallowly embeds the core logic of the repository:

* `convertOpalMarkdownToJira`, the markdown dialect conversion
  (checkbox-list normalization, emoji-to-shortcode substitution, and the
  double-newline replacement step);
* the request validation of `createJiraTicket` and its error classifier
  (the status-code driven catch block);
* `createIssueWithText` / `createDescriptionADF` of the JIRA client,
  with the two outbound HTTP calls (user lookup, issue creation) modelled
  by an explicit provider oracle and an explicit call log;
* `validateJiraConnection`, the health check.

Strings are Lean `String`s (lists of unicode scalar values); JavaScript
string operations (`trim`, `replace` with a global literal pattern,
line splitting for the multiline regex) are re-implemented on `List Char`
so that every definition evaluates by kernel reduction.
-/

/-- `isPrefixOfCL p l` decides whether the character list `p` is a prefix
of `l` (Boolean, by direct recursion). -/
def isPrefixOfCL : List Char → List Char → Bool
  | [], _ => true
  | _ :: _, [] => false
  | a :: as, b :: bs => if a = b then isPrefixOfCL as bs else false

/-- `containsSub pat l` decides whether `pat` occurs as a contiguous
substring of `l`. -/
def containsSub (pat : List Char) : List Char → Bool
  | [] => isPrefixOfCL pat []
  | c :: rest => isPrefixOfCL pat (c :: rest) || containsSub pat rest

/-- `strContains s pat` : does the string `s` contain `pat` as a substring?
(Models JavaScript `s.includes(pat)` used informally by the spec's
"the text contains ..." properties.) -/
def strContains (s pat : String) : Bool := containsSub pat.data s.data

/-- `replaceAll pat repl l` replaces every (left-to-right, non-overlapping)
occurrence of `pat` in `l` by `repl`: the semantics of JavaScript
`l.replace(/pat/g, repl)` for a literal pattern `pat`. -/
def replaceAll (pat repl : List Char) : List Char → List Char
  | [] => []
  | c :: rest =>
    if pat ≠ [] ∧ isPrefixOfCL pat (c :: rest) = true then
      repl ++ replaceAll pat repl (rest.drop (pat.length - 1))
    else
      c :: replaceAll pat repl rest
termination_by l => l.length
decreasing_by
  · simp only [List.length_drop, List.length_cons]
    omega
  · simp only [List.length_cons]
    omega

/-- Split a character list at newline characters; the semantics of the
line decomposition performed by a JavaScript multiline (`/m`) regex, or of
`s.split("\n")`. -/
def splitLines : List Char → List (List Char)
  | [] => [[]]
  | c :: rest =>
    if c = '\n' then [] :: splitLines rest
    else
      match splitLines rest with
      | [] => [[c]]
      | h :: t => (c :: h) :: t

/-- Join lines with newline characters: the inverse of `splitLines`. -/
def joinLines : List (List Char) → List Char
  | [] => []
  | [l] => l
  | l :: ls => l ++ '\n' :: joinLines ls

/-- Strip whitespace from both ends of a character list: the semantics of
JavaScript `String.prototype.trim` (whitespace taken as
`Char.isWhitespace`). -/
def trimChars (l : List Char) : List Char :=
  ((l.dropWhile Char.isWhitespace).reverse.dropWhile Char.isWhitespace).reverse

/-- JavaScript `s.trim()` on Lean strings. -/
def jsTrim (s : String) : String := ⟨trimChars s.data⟩

/-- One line of the checkbox normalization of `convertOpalMarkdownToJira`:
the regex `^\s*[-*]\s*\[([ x])\]\s*(.+)$` (flags `gm`) applied to a single
line, with replacement `[] ${text}`.  The `/m` regex is modelled per line
(`splitLines`/`joinLines`); within a line the greedy `\s*(.+)$` tail is
modelled exactly, including the backtracking case in which everything
after `]` is whitespace and `(.+)` captures the final whitespace
character. -/
def lineCheckbox (l : List Char) : List Char :=
  match l.dropWhile Char.isWhitespace with
  | c :: r2 =>
    if c = '-' ∨ c = '*' then
      match r2.dropWhile Char.isWhitespace with
      | '[' :: m :: ']' :: r4 =>
        if m = ' ' ∨ m = 'x' then
          match r4.dropWhile Char.isWhitespace with
          | text :: rest => '[' :: ']' :: ' ' :: text :: rest
          | [] =>
            match r4 with
            | [] => l
            | c4 :: r4' => '[' :: ']' :: ' ' :: [(c4 :: r4').getLast (by simp)]
        else l
      | _ => l
    else l
  | [] => l

/-- The checkbox ("action item") normalization step of
`convertOpalMarkdownToJira`, applied to a whole string. -/
def checkboxNorm (l : List Char) : List Char :=
  joinLines ((splitLines l).map lineCheckbox)

/-- The emoji-to-shortcode map of `convertOpalMarkdownToJira` for
single-codepoint emoji (`emojiMap`); characters outside the map are kept
(the `|| emoji` fallback never fires because every regex alternative is a
key of the map). -/
def singleEmoji (c : Char) : List Char :=
  if c = '😀' then ":smiley:".data
  else if c = '😊' then ":blush:".data
  else if c = '😎' then ":sunglasses:".data
  else if c = '👍' then ":thumbsup:".data
  else if c = '👎' then ":thumbsdown:".data
  else if c = '🎉' then ":tada:".data
  else if c = '🚀' then ":rocket:".data
  else if c = '❌' then ":x:".data
  else if c = '✅' then ":white_check_mark:".data
  else if c = '📝' then ":memo:".data
  else if c = '💡' then ":bulb:".data
  else if c = '🔧' then ":wrench:".data
  else if c = '⭐' then ":star:".data
  else [c]

/-- The emoji substitution step of `convertOpalMarkdownToJira`: a
left-to-right scan replacing each emoji of the regex alternation by its
shortcode.  `❤️` and `⚠️` are the two-codepoint sequences (base character
followed by the variation selector U+FE0F); the remaining alternatives
are single codepoints handled by `singleEmoji`. -/
def emojiSub : List Char → List Char
  | [] => []
  | '❤' :: '️' :: rest => ":heart:".data ++ emojiSub rest
  | '⚠' :: '️' :: rest => ":warning:".data ++ emojiSub rest
  | c :: rest => singleEmoji c ++ emojiSub rest

/-- `convertOpalMarkdownToJira` (jira-tools): checkbox normalization, then
emoji substitution, then the double-newline replacement
`replace(/\n\n/g, "\n\n")` exactly as written in the source. -/
def convertOpalMarkdownToJira (s : String) : String :=
  ⟨replaceAll "\n\n".data "\n\n".data (emojiSub (checkboxNorm s.data))⟩

/-- `convertOpalMarkdownToJira` with the double-newline replacement step
removed (the other two steps verbatim); used to state that the step is a
no-op. -/
def convertOpalMarkdownToJiraNoNewlineStep (s : String) : String :=
  ⟨emojiSub (checkboxNorm s.data)⟩

/-! ## Data model (jira-client / jira-tools interfaces) -/

/-- `JiraClientError` (jira-client): a typed provider failure carrying the
HTTP `status` (`0` when no HTTP response was received) and a `message`. -/
structure JiraClientError where
  message : String
  status : Int
deriving DecidableEq, Repr

/-- Result of `getUserByEmail` (jira-client). -/
structure UserAccount where
  accountId : String
  displayName : String
deriving DecidableEq, Repr

/-- `CreateIssueResponse` (jira-client). -/
structure CreateIssueResponse where
  id : String
  key : String
  self : String
deriving DecidableEq, Repr

/-- A text run inside an ADF paragraph (`CreateIssueRequest` description
content). -/
structure ADFText where
  text : String
  type : String
deriving DecidableEq, Repr

/-- A content node of the ADF document (`paragraph` nodes). -/
structure ADFNode where
  type : String
  content : List ADFText
deriving DecidableEq, Repr

/-- The ADF document produced by `createDescriptionADF`. -/
structure ADFDoc where
  type : String
  version : Nat
  content : List ADFNode
deriving DecidableEq, Repr

/-- The `fields` object of `CreateIssueRequest` (jira-client): project is
identified by key, issue type by name, assignee by account id;
description, when present, is an ADF document. -/
structure IssueFields where
  project : String
  summary : String
  description : Option ADFDoc
  issuetype : String
  assignee : Option String
deriving DecidableEq, Repr

/-- `CreateIssueRequest` (jira-client): the issue-creation payload. -/
structure CreateIssueRequest where
  fields : IssueFields
deriving DecidableEq, Repr

/-- The two outbound provider calls the core can make, recorded in order
of execution. -/
inductive OutboundCall where
  | userLookup (email : String)
  | issueCreate (req : CreateIssueRequest)
deriving DecidableEq, Repr

/-- The provider oracle: the observable outcome of each outbound HTTP
call, as surfaced by the jira-client layer (always a `JiraClientError`
on failure). -/
structure Provider where
  getUserByEmail : String → Except JiraClientError UserAccount
  createIssue : CreateIssueRequest → Except JiraClientError CreateIssueResponse

/-- `CreateJiraTicketParams` (jira-tools): the caller request.
`description = none` models an absent (`undefined`) description. -/
structure CreateJiraTicketParams where
  summary : String
  description : Option String
deriving DecidableEq, Repr

/-- `CreateJiraTicketResult` (jira-tools). -/
structure CreateJiraTicketResult where
  success : Bool
  ticketKey : String
  ticketUrl : String
  ticketId : String
  message : String
deriving DecidableEq, Repr

/-- Result shape of `validateJiraConnection` (jira-tools). -/
structure ConnectionValidationResult where
  success : Bool
  message : String
  projectAccessible : Bool
  assigneeFound : Bool
deriving DecidableEq, Repr

/-! ## jira-client -/

/-- `createDescriptionADF` (jira-client): wrap plain text into a single
paragraph node containing the text as one run. -/
def createDescriptionADF (text : String) : ADFDoc :=
  { type := "doc", version := 1,
    content := [{ type := "paragraph", content := [{ text := text, type := "text" }] }] }

/-- The axios response interceptor of jira-client, as the three error
shapes it distinguishes: a response with an HTTP status (whose body may
carry `message` or `errorMessages`), a request that got no response, and
a setup error. -/
inductive HttpFailure where
  | response (status : Int) (dataMessage : Option String)
      (dataErrorMessages : List String) (errMessage : String)
  | noResponse
  | setup (message : String)

/-- The error interceptor of jira-client: build the `JiraClientError` for
a failed HTTP exchange.  For a response, the message is the first truthy
among `data.message`, `data.errorMessages[0]` and the transport message
(JavaScript `||` also skips empty strings); with no response the status
is `0` and the message the fixed transport-failure text. -/
def interceptError : HttpFailure → JiraClientError
  | HttpFailure.response status dataMessage dataErrorMessages errMessage =>
    let msg :=
      match dataMessage with
      | some m => if m ≠ "" then m else
          match dataErrorMessages with
          | m0 :: _ => if m0 ≠ "" then m0 else errMessage
          | [] => errMessage
      | none =>
          match dataErrorMessages with
          | m0 :: _ => if m0 ≠ "" then m0 else errMessage
          | [] => errMessage
    { message := msg, status := status }
  | HttpFailure.noResponse =>
    { message := "Network error: Unable to reach JIRA server", status := 0 }
  | HttpFailure.setup m => { message := m, status := 0 }

/-- `createIssueWithText` (jira-client): build the `CreateIssueRequest`
from the given project key, issue type, summary, optional plain-text
description and optional assignee email, then submit it.  The description
field is added only when the description string is truthy (present and
non-empty); the assignee is resolved by `getUserByEmail` and silently
omitted when the lookup fails.  Returns the provider's answer together
with the ordered log of outbound calls. -/
def createIssueWithText (prov : Provider) (projectKey issueType summary : String)
    (description : Option String) (assigneeEmail : Option String) :
    Except JiraClientError CreateIssueResponse × List OutboundCall :=
  let fields0 : IssueFields :=
    { project := projectKey, summary := summary, description := none,
      issuetype := issueType, assignee := none }
  let fields1 :=
    match description with
    | some d => if d = "" then fields0
                else { fields0 with description := some (createDescriptionADF d) }
    | none => fields0
  match assigneeEmail with
  | some e =>
    if e = "" then
      (prov.createIssue ⟨fields1⟩, [OutboundCall.issueCreate ⟨fields1⟩])
    else
      let fields2 :=
        match prov.getUserByEmail e with
        | Except.ok u => { fields1 with assignee := some u.accountId }
        | Except.error _ => fields1
      (prov.createIssue ⟨fields2⟩,
       [OutboundCall.userLookup e, OutboundCall.issueCreate ⟨fields2⟩])
  | none => (prov.createIssue ⟨fields1⟩, [OutboundCall.issueCreate ⟨fields1⟩])

/-! ## jira-tools (the Petsmart/DTO deployment variant, whose
`createJiraTicket` also performs the markdown conversion) -/

/-- Hardcoded project key of the deployment. -/
def PETSMART_PROJECT_KEY : String := "DTO"

/-- Hardcoded issue type of the deployment. -/
def DEFAULT_ISSUE_TYPE : String := "Epic"

/-- Hardcoded assignee email of the deployment. -/
def PETSMART_ASSIGNEE_EMAIL : String := "oruhland@petsmart.com"

/-- The input validation of `createJiraTicket`, in source order with the
first failing rule winning: missing/trim-to-empty summary, then untrimmed
summary length over 255, then description present (truthy) and longer
than 32767.  Returns the validation error message, or `none` when the
request is valid. -/
def validationError (params : CreateJiraTicketParams) : Option String :=
  if params.summary = "" ∨ jsTrim params.summary = "" then
    some "Summary is required and cannot be empty"
  else if 255 < params.summary.length then
    some "Summary must be 255 characters or less"
  else
    match params.description with
    | some d =>
      if d ≠ "" ∧ 32767 < d.length then
        some "Description must be 32,767 characters or less"
      else none
    | none => none

/-- The catch block of `createJiraTicket` for `JiraClientError`s: the
status-code driven error classifier.  Each branch appends the original
technical message after the human-readable diagnosis; statuses other than
400/401/403/404/429 (including 0) fall through to the generic message. -/
def classifyJiraError (e : JiraClientError) : String :=
  if e.status = 400 then
    "Failed to create JIRA ticket: Invalid request data. This could mean: 1) The Petsmart project ("
      ++ PETSMART_PROJECT_KEY
      ++ ") configuration has changed, 2) The Epic issue type is not available, 3) Required custom fields are missing, or 4) Field values are invalid. Please contact your JIRA administrator to verify project configuration. Technical details: "
      ++ e.message
  else if e.status = 401 then
    "Authentication failed when creating JIRA ticket. The API token may be expired or invalid. Please check the JIRA_API_TOKEN environment variable and ensure it has create permissions for the Petsmart project. Technical details: "
      ++ e.message
  else if e.status = 403 then
    "Access denied when creating ticket in Petsmart project ("
      ++ PETSMART_PROJECT_KEY
      ++ "). Your account may not have permission to create Epic issues in this project or assign tickets to "
      ++ PETSMART_ASSIGNEE_EMAIL
      ++ ". Please contact your JIRA administrator to verify permissions. Technical details: "
      ++ e.message
  else if e.status = 404 then
    "Petsmart project ("
      ++ PETSMART_PROJECT_KEY
      ++ ") or Epic issue type not found. The project may have been moved, renamed, or you may not have access to it. Please verify the project exists and you have appropriate permissions. Technical details: "
      ++ e.message
  else if e.status = 429 then
    "Rate limit exceeded when creating JIRA ticket. Too many requests have been made to the JIRA API. Please wait a moment and try again. Technical details: "
      ++ e.message
  else
    "Failed to create JIRA ticket in DEX project: " ++ e.message

/-- The body of `createJiraTicket` after successful validation: convert
the (truthy) description, call `createIssueWithText` with the hardcoded
deployment values, and format the success result or classify the
failure.  `baseUrl` models `process.env.JIRA_BASE_URL || ""`. -/
def createTicketBody (baseUrl : String) (prov : Provider)
    (params : CreateJiraTicketParams) :
    Except String CreateJiraTicketResult × List OutboundCall :=
  let convertedDescription : Option String :=
    match params.description with
    | some d => if d = "" then none else some (convertOpalMarkdownToJira (jsTrim d))
    | none => none
  let step := createIssueWithText prov PETSMART_PROJECT_KEY DEFAULT_ISSUE_TYPE
      (jsTrim params.summary) convertedDescription (some PETSMART_ASSIGNEE_EMAIL)
  let outcome : Except String CreateJiraTicketResult :=
    match step.1 with
    | Except.ok result =>
      let ticketUrl := baseUrl ++ "/browse/" ++ result.key
      Except.ok
        { success := true, ticketKey := result.key, ticketUrl := ticketUrl,
          ticketId := result.id,
          message := "Successfully created JIRA ticket " ++ result.key
            ++ " in Petsmart DTO project. Attempted to assign to oruhland@petsmart.com. Check the ticket to verify assignment. View at "
            ++ ticketUrl }
    | Except.error e => Except.error (classifyJiraError e)
  (outcome, step.2)

/-- `createJiraTicket` (jira-tools): validate, then run the body.  The
result is paired with the ordered log of outbound provider calls;
validation failures perform no outbound call. -/
def createJiraTicket (baseUrl : String) (prov : Provider)
    (params : CreateJiraTicketParams) :
    Except String CreateJiraTicketResult × List OutboundCall :=
  match validationError params with
  | some msg => (Except.error msg, [])
  | none => createTicketBody baseUrl prov params

/-- `validateJiraConnection` (jira-tools): start from the optimistic
result, attempt only the assignee lookup, and on failure flip
`assigneeFound` and append the warning to the message.  The enclosing
catch of the source is unreachable (the inner catch already swallows
every lookup failure), so the error branches returning `success = false`
are never taken. -/
def validateJiraConnection (prov : Provider) :
    ConnectionValidationResult × List OutboundCall :=
  let base : ConnectionValidationResult :=
    { success := true, message := "JIRA connection validated successfully",
      projectAccessible := true, assigneeFound := true }
  match prov.getUserByEmail PETSMART_ASSIGNEE_EMAIL with
  | Except.ok _ => (base, [OutboundCall.userLookup PETSMART_ASSIGNEE_EMAIL])
  | Except.error _ =>
    ({ base with
        assigneeFound := false,
        message := base.message ++ " (Warning: Could not find user "
          ++ PETSMART_ASSIGNEE_EMAIL ++ ")" },
     [OutboundCall.userLookup PETSMART_ASSIGNEE_EMAIL])

/-! ## Helper lemmas -/

theorem str_data_append (a b : String) : (a ++ b).data = a.data ++ b.data := rfl

theorem isPrefixOfCL_iff : ∀ (p l : List Char), isPrefixOfCL p l = true ↔ ∃ t, l = p ++ t
  | [], l => by simp [isPrefixOfCL]
  | _ :: _, [] => by simp [isPrefixOfCL]
  | a :: as, b :: bs => by
    simp only [isPrefixOfCL]
    by_cases h : a = b
    · subst h
      simpa using isPrefixOfCL_iff as bs
    · rw [if_neg h]
      constructor
      · intro hf
        simp at hf
      · rintro ⟨t, ht⟩
        rw [List.cons_append] at ht
        injection ht with h1 _
        exact absurd h1.symm h

theorem isPrefixOfCL_append (p t : List Char) : isPrefixOfCL p (p ++ t) = true :=
  (isPrefixOfCL_iff p (p ++ t)).mpr ⟨t, rfl⟩

theorem isPrefixOfCL_extend {p l : List Char} (b : List Char)
    (h : isPrefixOfCL p l = true) : isPrefixOfCL p (l ++ b) = true := by
  obtain ⟨t, rfl⟩ := (isPrefixOfCL_iff p l).mp h
  exact (isPrefixOfCL_iff _ _).mpr ⟨t ++ b, by simp⟩

theorem containsSub_of_isPrefixOfCL {pat l : List Char}
    (h : isPrefixOfCL pat l = true) : containsSub pat l = true := by
  cases l with
  | nil => simpa [containsSub] using h
  | cons c rest => simp [containsSub, h]

theorem containsSub_cons {pat l : List Char} (c : Char)
    (h : containsSub pat l = true) : containsSub pat (c :: l) = true := by
  simp [containsSub, h]

theorem containsSub_append_right {pat b : List Char} (a : List Char)
    (h : containsSub pat b = true) : containsSub pat (a ++ b) = true := by
  induction a with
  | nil => simpa using h
  | cons c as ih => simpa using containsSub_cons c ih

theorem containsSub_append_left {pat a : List Char} (b : List Char)
    (h : containsSub pat a = true) : containsSub pat (a ++ b) = true := by
  induction a with
  | nil =>
    have hp : pat = [] := by
      cases pat with
      | nil => rfl
      | cons x xs => simp [containsSub, isPrefixOfCL] at h
    subst hp
    exact containsSub_of_isPrefixOfCL (by cases b <;> simp [isPrefixOfCL])
  | cons c as ih =>
    simp only [containsSub, Bool.or_eq_true] at h
    rcases h with h | h
    · exact containsSub_of_isPrefixOfCL (by simpa using isPrefixOfCL_extend b h)
    · simpa using containsSub_cons c (ih h)

theorem containsSub_refl (pat : List Char) : containsSub pat pat = true := by
  have : isPrefixOfCL pat pat = true := by
    simpa using isPrefixOfCL_append pat []
  exact containsSub_of_isPrefixOfCL this

/-- If a string has the shape `a ++ p ++ b`, it contains `p`. -/
theorem strContains_parts (a p b : String) : strContains (a ++ p ++ b) p = true := by
  unfold strContains
  rw [str_data_append, str_data_append, List.append_assoc]
  exact containsSub_append_right a.data
    (containsSub_append_left b.data (containsSub_refl p.data))

/-- A substring of the left part of an append is a substring of the
append. -/
theorem strContains_append_left (a b pat : String)
    (h : strContains a pat = true) : strContains (a ++ b) pat = true := by
  unfold strContains at h ⊢
  rw [str_data_append]
  exact containsSub_append_left b.data h

/-- A substring of the right part of an append is a substring of the
append. -/
theorem strContains_append_right (a b pat : String)
    (h : strContains b pat = true) : strContains (a ++ b) pat = true := by
  unfold strContains at h ⊢
  rw [str_data_append]
  exact containsSub_append_right a.data h

/-- Replacing a pattern by itself is the identity (step over one cons or
one matched occurrence, by strong induction on the length). -/
theorem replaceAll_self_bounded (pat : List Char) :
    ∀ (n : Nat) (l : List Char), l.length ≤ n → replaceAll pat pat l = l := by
  intro n
  induction n with
  | zero =>
    intro l hl
    have : l = [] := List.length_eq_zero.mp (Nat.le_zero.mp hl)
    subst this
    simp [replaceAll]
  | succ n ih =>
    intro l hl
    match l with
    | [] => simp [replaceAll]
    | c :: rest =>
      rw [replaceAll]
      split
      · next h =>
        obtain ⟨hne, hpre⟩ := h
        obtain ⟨t, ht⟩ := (isPrefixOfCL_iff pat (c :: rest)).mp hpre
        have hplen : 1 ≤ pat.length := by
          cases pat with
          | nil => exact absurd rfl hne
          | cons _ _ => simp
        have hdrop : rest.drop (pat.length - 1) = t := by
          have : (c :: rest).drop pat.length = t := by
            rw [ht, List.drop_left]
          cases hp : pat.length with
          | zero => omega
          | succ k =>
            rw [hp] at this
            simpa using this
        rw [hdrop]
        have htlen : t.length ≤ n := by
          have : (c :: rest).length = pat.length + t.length := by
            rw [ht, List.length_append]
          simp only [List.length_cons] at this hl
          omega
        rw [ih t htlen, ht]
      · next =>
        have : rest.length ≤ n := by
          simp only [List.length_cons] at hl
          omega
        rw [ih rest this]

theorem replaceAll_self (pat l : List Char) : replaceAll pat pat l = l :=
  replaceAll_self_bounded pat l.length l (Nat.le_refl _)

theorem splitLines_ne_nil (l : List Char) : splitLines l ≠ [] := by
  cases l with
  | nil => simp [splitLines]
  | cons c rest =>
    simp only [splitLines]
    split
    · simp
    · split <;> simp

theorem joinLines_cons (l : List Char) (ls : List (List Char)) (h : ls ≠ []) :
    joinLines (l :: ls) = l ++ '\n' :: joinLines ls := by
  cases ls with
  | nil => exact absurd rfl h
  | cons a as => rfl

/-- `joinLines` is a left inverse of `splitLines`: the per-line model of
the multiline regex reassembles the original string. -/
theorem joinLines_splitLines (l : List Char) : joinLines (splitLines l) = l := by
  induction l with
  | nil => rfl
  | cons c rest ih =>
    by_cases hc : c = '\n'
    · subst hc
      have h1 : splitLines ('\n' :: rest) = [] :: splitLines rest := by
        simp [splitLines]
      rw [h1, joinLines_cons _ _ (splitLines_ne_nil rest), ih]
      rfl
    · rcases hsp : splitLines rest with _ | ⟨hd, tl⟩
      · exact absurd hsp (splitLines_ne_nil rest)
      · have hs : splitLines (c :: rest) = (c :: hd) :: tl := by
          simp [splitLines, hc, hsp]
        rw [hs]
        cases tl with
        | nil =>
          have hh : hd = rest := by
            have := ih
            rw [hsp] at this
            simpa [joinLines] using this
          simp [joinLines, hh]
        | cons b bs =>
          rw [joinLines_cons _ _ (by simp)]
          have h2 := ih
          rw [hsp, joinLines_cons _ _ (by simp)] at h2
          rw [List.cons_append, h2]

theorem lineCheckbox_nil : lineCheckbox [] = [] := rfl

/-- A line is either left unchanged by the checkbox normalization or
rewritten to `[] ...`. -/
theorem lineCheckbox_shape (l : List Char) :
    lineCheckbox l = l ∨ ∃ r, lineCheckbox l = '[' :: ']' :: ' ' :: r := by
  unfold lineCheckbox
  repeat' split
  all_goals first
    | exact Or.inl rfl
    | exact Or.inr ⟨_, rfl⟩

theorem lineCheckbox_ne_nil {l : List Char} (h : l ≠ []) : lineCheckbox l ≠ [] := by
  rcases lineCheckbox_shape l with he | ⟨r, he⟩ <;> rw [he] <;> simp [h]

theorem append_ne_nil_left {α : Type} {a : List α} (b : List α) (h : a ≠ []) :
    a ++ b ≠ [] := by
  simp [h]

theorem checkboxNorm_ne_nil {l : List Char} (h : l ≠ []) : checkboxNorm l ≠ [] := by
  unfold checkboxNorm
  cases l with
  | nil => exact absurd rfl h
  | cons c rest =>
    by_cases hc : c = '\n'
    · subst hc
      have h1 : splitLines ('\n' :: rest) = [] :: splitLines rest := by
        simp [splitLines]
      have h2 : (splitLines rest).map lineCheckbox ≠ [] := by
        simpa using splitLines_ne_nil rest
      rw [h1, List.map_cons, joinLines_cons _ _ h2, lineCheckbox_nil]
      simp
    · rcases hsp : splitLines rest with _ | ⟨hd, tl⟩
      · exact absurd hsp (splitLines_ne_nil rest)
      · have hs : splitLines (c :: rest) = (c :: hd) :: tl := by
          simp [splitLines, hc, hsp]
        rw [hs, List.map_cons]
        cases tl with
        | nil => simpa [joinLines] using lineCheckbox_ne_nil (by simp : c :: hd ≠ [])
        | cons b bs =>
          rw [joinLines_cons _ _ (by simp)]
          exact append_ne_nil_left _ (lineCheckbox_ne_nil (by simp))

theorem ite_ne_nil {b : Prop} [Decidable b] {x y : List Char}
    (hx : x ≠ []) (hy : y ≠ []) : (if b then x else y) ≠ [] := by
  split <;> assumption

theorem singleEmoji_ne_nil (c : Char) : singleEmoji c ≠ [] := by
  unfold singleEmoji
  repeat' apply ite_ne_nil
  all_goals first | decide | simp

theorem emojiSub_ne_nil : ∀ {l : List Char}, l ≠ [] → emojiSub l ≠ [] := by
  intro l h
  rw [emojiSub.eq_def]
  split
  · exact absurd rfl h
  · exact append_ne_nil_left _ (by decide)
  · exact append_ne_nil_left _ (by decide)
  · exact append_ne_nil_left _ (singleEmoji_ne_nil _)

/-- The markdown conversion maps non-empty strings to non-empty strings. -/
theorem convertOpalMarkdownToJira_ne_empty {s : String} (h : s ≠ "") :
    convertOpalMarkdownToJira s ≠ "" := by
  unfold convertOpalMarkdownToJira
  rw [replaceAll_self]
  have hd : s.data ≠ [] := by
    intro hx
    apply h
    cases s
    simp at hx
    simp [hx]
  intro hx
  exact emojiSub_ne_nil (checkboxNorm_ne_nil hd) (congrArg String.data hx)

theorem splitLines_no_newline {l : List Char} (h : '\n' ∉ l) : splitLines l = [l] := by
  induction l with
  | nil => rfl
  | cons c rest ih =>
    have hc : c ≠ '\n' := fun he => h (he ▸ List.mem_cons_self c rest)
    have hr : '\n' ∉ rest := fun hm => h (List.mem_cons_of_mem c hm)
    simp [splitLines, hc, ih hr]

/-- On a single line (no newline character) the checkbox normalization is
exactly the per-line rewrite. -/
theorem checkboxNorm_single {l : List Char} (h : '\n' ∉ l) :
    checkboxNorm l = lineCheckbox l := by
  unfold checkboxNorm
  rw [splitLines_no_newline h]
  rfl

theorem strContains_refl (p : String) : strContains p p = true :=
  containsSub_refl p.data

theorem str_append_empty (s : String) : s ++ "" = s := by
  cases s with
  | mk l =>
    show String.mk (l ++ []) = String.mk l
    rw [List.append_nil]

theorem jsTrim_empty : jsTrim "" = "" := rfl

/-- Every classified error message is the classification of the empty
message followed by the original technical message: the technical detail
is appended after the human-readable diagnosis. -/
theorem classifyJiraError_append (m : String) (s : Int) :
    classifyJiraError ⟨m, s⟩ = classifyJiraError ⟨"", s⟩ ++ m := by
  simp only [classifyJiraError]
  split_ifs <;> rw [str_append_empty]

/-- The diagnosis part of a classified error is never empty. -/
theorem classifyJiraError_empty_ne (s : Int) : classifyJiraError ⟨"", s⟩ ≠ "" := by
  simp only [classifyJiraError]
  split_ifs <;> decide

/-- Full characterization of the post-validation body of
`createJiraTicket`: exactly one user lookup (for the hardcoded assignee
email) followed by exactly one issue creation, whose payload carries the
hardcoded project key and issue type, the trimmed summary, the converted
description when it is truthy, and the assignee account only when the
lookup succeeded; the outcome is the formatted success result or the
classified error of the creation call. -/
theorem createTicketBody_spec (baseUrl : String) (prov : Provider)
    (params : CreateJiraTicketParams) :
    ∃ req : CreateIssueRequest,
      (createTicketBody baseUrl prov params).2 =
        [OutboundCall.userLookup PETSMART_ASSIGNEE_EMAIL, OutboundCall.issueCreate req]
      ∧ req.fields.project = PETSMART_PROJECT_KEY
      ∧ req.fields.issuetype = DEFAULT_ISSUE_TYPE
      ∧ req.fields.summary = jsTrim params.summary
      ∧ req.fields.description = (match params.description with
          | some d =>
            if d = "" ∨ convertOpalMarkdownToJira (jsTrim d) = "" then none
            else some (createDescriptionADF (convertOpalMarkdownToJira (jsTrim d)))
          | none => none)
      ∧ req.fields.assignee = (match prov.getUserByEmail PETSMART_ASSIGNEE_EMAIL with
          | Except.ok u => some u.accountId
          | Except.error _ => none)
      ∧ (∀ result, prov.createIssue req = Except.ok result →
          (createTicketBody baseUrl prov params).1 = Except.ok
            { success := true, ticketKey := result.key,
              ticketUrl := baseUrl ++ "/browse/" ++ result.key,
              ticketId := result.id,
              message := "Successfully created JIRA ticket " ++ result.key
                ++ " in Petsmart DTO project. Attempted to assign to oruhland@petsmart.com. Check the ticket to verify assignment. View at "
                ++ (baseUrl ++ "/browse/" ++ result.key) })
      ∧ (∀ err, prov.createIssue req = Except.error err →
          (createTicketBody baseUrl prov params).1 =
            Except.error (classifyJiraError err)) := by
  have hemail : ¬(PETSMART_ASSIGNEE_EMAIL = "") := by decide
  rcases hd : params.description with _ | d
  · rcases hu : prov.getUserByEmail PETSMART_ASSIGNEE_EMAIL with e | u
    · refine ⟨⟨⟨PETSMART_PROJECT_KEY, jsTrim params.summary, none, DEFAULT_ISSUE_TYPE, none⟩⟩, ?_⟩
      simp [createTicketBody, createIssueWithText, hd, hu, hemail]  <;> (constructor <;> intro x hx <;> simp [hx])
    · refine ⟨⟨⟨PETSMART_PROJECT_KEY, jsTrim params.summary, none, DEFAULT_ISSUE_TYPE,
        some u.accountId⟩⟩, ?_⟩
      simp [createTicketBody, createIssueWithText, hd, hu, hemail]  <;> (constructor <;> intro x hx <;> simp [hx])
  · by_cases hde : d = ""
    · subst hde
      rcases hu : prov.getUserByEmail PETSMART_ASSIGNEE_EMAIL with e | u
      · refine ⟨⟨⟨PETSMART_PROJECT_KEY, jsTrim params.summary, none, DEFAULT_ISSUE_TYPE, none⟩⟩, ?_⟩
        simp [createTicketBody, createIssueWithText, hd, hu, hemail]  <;> (constructor <;> intro x hx <;> simp [hx])
      · refine ⟨⟨⟨PETSMART_PROJECT_KEY, jsTrim params.summary, none, DEFAULT_ISSUE_TYPE,
          some u.accountId⟩⟩, ?_⟩
        simp [createTicketBody, createIssueWithText, hd, hu, hemail]  <;> (constructor <;> intro x hx <;> simp [hx])
    · by_cases hcv : convertOpalMarkdownToJira (jsTrim d) = ""
      · rcases hu : prov.getUserByEmail PETSMART_ASSIGNEE_EMAIL with e | u
        · refine ⟨⟨⟨PETSMART_PROJECT_KEY, jsTrim params.summary, none, DEFAULT_ISSUE_TYPE,
            none⟩⟩, ?_⟩
          simp [createTicketBody, createIssueWithText, hd, hde, hcv, hu, hemail]  <;> (constructor <;> intro x hx <;> simp [hx])
        · refine ⟨⟨⟨PETSMART_PROJECT_KEY, jsTrim params.summary, none, DEFAULT_ISSUE_TYPE,
            some u.accountId⟩⟩, ?_⟩
          simp [createTicketBody, createIssueWithText, hd, hde, hcv, hu, hemail]  <;> (constructor <;> intro x hx <;> simp [hx])
      · rcases hu : prov.getUserByEmail PETSMART_ASSIGNEE_EMAIL with e | u
        · refine ⟨⟨⟨PETSMART_PROJECT_KEY, jsTrim params.summary,
            some (createDescriptionADF (convertOpalMarkdownToJira (jsTrim d))),
            DEFAULT_ISSUE_TYPE, none⟩⟩, ?_⟩
          simp [createTicketBody, createIssueWithText, hd, hde, hcv, hu, hemail]  <;> (constructor <;> intro x hx <;> simp [hx])
        · refine ⟨⟨⟨PETSMART_PROJECT_KEY, jsTrim params.summary,
            some (createDescriptionADF (convertOpalMarkdownToJira (jsTrim d))),
            DEFAULT_ISSUE_TYPE, some u.accountId⟩⟩, ?_⟩
          simp [createTicketBody, createIssueWithText, hd, hde, hcv, hu, hemail]  <;> (constructor <;> intro x hx <;> simp [hx])

/-- With a valid request, `createJiraTicket` runs the post-validation
body. -/
theorem createJiraTicket_valid_run (baseUrl : String) (prov : Provider)
    (params : CreateJiraTicketParams) (hv : validationError params = none) :
    createJiraTicket baseUrl prov params = createTicketBody baseUrl prov params := by
  unfold createJiraTicket
  rw [hv]

/-! ## Concrete providers used by witnesses -/

/-- A provider whose user lookup and issue creation always succeed. -/
def okProvider : Provider where
  getUserByEmail := fun _ => Except.ok ⟨"5b10a2844c20165700ede21g", "Oliver Ruhland"⟩
  createIssue := fun _ =>
    Except.ok ⟨"10001", "DHK-123", "https://jira.example.com/rest/api/3/issue/10001"⟩

/-- A provider whose user lookup fails with the 404 shape that
`getUserByEmail` produces for a missing account, while issue creation
succeeds. -/
def lookupFailProvider : Provider where
  getUserByEmail := fun e => Except.error ⟨"User with email " ++ e ++ " not found", 404⟩
  createIssue := fun _ =>
    Except.ok ⟨"10001", "DHK-123", "https://jira.example.com/rest/api/3/issue/10001"⟩

/-- A provider whose user lookup succeeds but whose issue creation fails
with the given error. -/
def createFailProvider (err : JiraClientError) : Provider where
  getUserByEmail := fun _ => Except.ok ⟨"5b10a2844c20165700ede21g", "Oliver Ruhland"⟩
  createIssue := fun _ => Except.error err

/-! ## Claims -/

/-- C1: `createJiraTicket` applies the three validation rules in source
order with the first failure winning — missing or trim-to-empty summary,
then untrimmed summary length over 255, then present description longer
than 32767 — and in every failing case returns the corresponding
validation error message having made no outbound provider call. -/
theorem createJiraTicket_validation_order (baseUrl : String) (prov : Provider)
    (params : CreateJiraTicketParams) :
    ((params.summary = "" ∨ jsTrim params.summary = "") →
      createJiraTicket baseUrl prov params =
        (Except.error "Summary is required and cannot be empty", []))
    ∧ (params.summary ≠ "" → jsTrim params.summary ≠ "" →
        255 < params.summary.length →
      createJiraTicket baseUrl prov params =
        (Except.error "Summary must be 255 characters or less", []))
    ∧ (params.summary ≠ "" → jsTrim params.summary ≠ "" →
        params.summary.length ≤ 255 →
      ∀ d, params.description = some d → d ≠ "" → 32767 < d.length →
      createJiraTicket baseUrl prov params =
        (Except.error "Description must be 32,767 characters or less", [])) := by
  refine ⟨?_, ?_, ?_⟩
  · intro h
    unfold createJiraTicket validationError
    rw [if_pos h]
  · intro h1 h2 h3
    unfold createJiraTicket validationError
    rw [if_neg (by tauto), if_pos h3]
  · intro h1 h2 h3 d hd h4 h5
    unfold createJiraTicket validationError
    rw [if_neg (by tauto), if_neg (by omega), hd]
    simp [h4, h5]

/-- Witness for C1: the empty summary is rejected with the
summary-required message and an empty call log. -/
theorem createJiraTicket_validation_order_witness :
    createJiraTicket "https://jira.example.com" okProvider ⟨"", none⟩ =
      (Except.error "Summary is required and cannot be empty", []) :=
  (createJiraTicket_validation_order "https://jira.example.com" okProvider ⟨"", none⟩).1
    (Or.inl rfl)

/-- C8: the double-newline replacement step of `convertOpalMarkdownToJira`
is a no-op — removing it leaves the conversion unchanged on every
input. -/
theorem convertOpalMarkdownToJira_newline_step_noop (s : String) :
    convertOpalMarkdownToJiraNoNewlineStep s = convertOpalMarkdownToJira s := by
  unfold convertOpalMarkdownToJira convertOpalMarkdownToJiraNoNewlineStep
  rw [replaceAll_self]

/-- C2: for every request that passes validation, the issue payload's
project key and issue type are exactly the fixed deployment constants and
the assignee lookup targets exactly the fixed deployment email — no field
of the request influences them. -/
theorem createJiraTicket_fixed_destination (baseUrl : String) (prov : Provider)
    (params : CreateJiraTicketParams) (hv : validationError params = none) :
    ∃ req : CreateIssueRequest,
      (createJiraTicket baseUrl prov params).2 =
        [OutboundCall.userLookup PETSMART_ASSIGNEE_EMAIL, OutboundCall.issueCreate req]
      ∧ req.fields.project = PETSMART_PROJECT_KEY
      ∧ req.fields.issuetype = DEFAULT_ISSUE_TYPE := by
  obtain ⟨req, hcalls, hproj, htype, -, -, -, -, -⟩ :=
    createTicketBody_spec baseUrl prov params
  rw [createJiraTicket_valid_run baseUrl prov params hv]
  exact ⟨req, hcalls, hproj, htype⟩

/-- Witness for C2 at a concrete valid request. -/
theorem createJiraTicket_fixed_destination_witness :
    ∃ req : CreateIssueRequest,
      (createJiraTicket "https://jira.example.com" okProvider ⟨"Fix login", none⟩).2 =
        [OutboundCall.userLookup PETSMART_ASSIGNEE_EMAIL, OutboundCall.issueCreate req]
      ∧ req.fields.project = PETSMART_PROJECT_KEY
      ∧ req.fields.issuetype = DEFAULT_ISSUE_TYPE :=
  createJiraTicket_fixed_destination "https://jira.example.com" okProvider
    ⟨"Fix login", none⟩ (by decide)

/-- C3: when the assignee lookup fails for any reason (including the 404
no-matching-account shape), the payload is still built and submitted with
no assignee field, and ticket creation succeeds whenever the provider
accepts the payload — assignee-resolution failure never fails
`createJiraTicket`. -/
theorem createJiraTicket_assignee_best_effort (baseUrl : String) (prov : Provider)
    (params : CreateJiraTicketParams) (e : JiraClientError)
    (hv : validationError params = none)
    (hl : prov.getUserByEmail PETSMART_ASSIGNEE_EMAIL = Except.error e) :
    ∃ req : CreateIssueRequest,
      (createJiraTicket baseUrl prov params).2 =
        [OutboundCall.userLookup PETSMART_ASSIGNEE_EMAIL, OutboundCall.issueCreate req]
      ∧ req.fields.assignee = none
      ∧ ∀ result, prov.createIssue req = Except.ok result →
          ∃ r, (createJiraTicket baseUrl prov params).1 = Except.ok r
            ∧ r.success = true := by
  obtain ⟨req, hcalls, -, -, -, -, hassg, hok, -⟩ :=
    createTicketBody_spec baseUrl prov params
  rw [createJiraTicket_valid_run baseUrl prov params hv]
  refine ⟨req, hcalls, ?_, ?_⟩
  · rw [hassg, hl]
  · intro result hres
    exact ⟨_, hok result hres, rfl⟩

/-- Witness for C3: a 404-failing lookup with an accepting provider. -/
theorem createJiraTicket_assignee_best_effort_witness :
    ∃ req : CreateIssueRequest,
      (createJiraTicket "https://jira.example.com" lookupFailProvider
          ⟨"Fix login", none⟩).2 =
        [OutboundCall.userLookup PETSMART_ASSIGNEE_EMAIL, OutboundCall.issueCreate req]
      ∧ req.fields.assignee = none
      ∧ ∀ result, lookupFailProvider.createIssue req = Except.ok result →
          ∃ r, (createJiraTicket "https://jira.example.com" lookupFailProvider
              ⟨"Fix login", none⟩).1 = Except.ok r
            ∧ r.success = true :=
  createJiraTicket_assignee_best_effort "https://jira.example.com" lookupFailProvider
    ⟨"Fix login", none⟩
    ⟨"User with email " ++ PETSMART_ASSIGNEE_EMAIL ++ " not found", 404⟩ (by decide) rfl

/-- C9: the payload's description field is absent whenever the request's
description is absent, empty, or trims-and-converts to the empty string;
a description with non-blank trim yields a single-paragraph ADF document
holding the converted text as one text run. -/
theorem createJiraTicket_description_payload (baseUrl : String) (prov : Provider)
    (params : CreateJiraTicketParams) (hv : validationError params = none) :
    ∃ req : CreateIssueRequest,
      (createJiraTicket baseUrl prov params).2 =
        [OutboundCall.userLookup PETSMART_ASSIGNEE_EMAIL, OutboundCall.issueCreate req]
      ∧ (params.description = none → req.fields.description = none)
      ∧ (∀ d, params.description = some d →
          d = "" ∨ convertOpalMarkdownToJira (jsTrim d) = "" →
          req.fields.description = none)
      ∧ (∀ d, params.description = some d → jsTrim d ≠ "" →
          req.fields.description =
            some (createDescriptionADF (convertOpalMarkdownToJira (jsTrim d)))
          ∧ (createDescriptionADF (convertOpalMarkdownToJira (jsTrim d))).content =
              [ADFNode.mk "paragraph"
                [ADFText.mk (convertOpalMarkdownToJira (jsTrim d)) "text"]]) := by
  obtain ⟨req, hcalls, -, -, -, hdesc, -, -, -⟩ :=
    createTicketBody_spec baseUrl prov params
  rw [createJiraTicket_valid_run baseUrl prov params hv]
  refine ⟨req, hcalls, ?_, ?_, ?_⟩
  · intro h
    rw [hdesc, h]
  · intro d hd hempty
    rw [hdesc, hd]
    rcases hempty with he | he <;> simp [he]
  · intro d hd hne
    have hd' : d ≠ "" := by
      intro he
      subst he
      exact hne jsTrim_empty
    have hcv : convertOpalMarkdownToJira (jsTrim d) ≠ "" :=
      convertOpalMarkdownToJira_ne_empty hne
    refine ⟨?_, rfl⟩
    rw [hdesc, hd]
    simp [hd', hcv]

/-- Witness for C9: a description of pure whitespace trims to empty, and
the submitted payload carries no description field. -/
theorem createJiraTicket_description_payload_witness :
    ∃ req : CreateIssueRequest,
      (createJiraTicket "https://jira.example.com" okProvider
          ⟨"Fix login", some "   "⟩).2 =
        [OutboundCall.userLookup PETSMART_ASSIGNEE_EMAIL, OutboundCall.issueCreate req]
      ∧ ((⟨"Fix login", some "   "⟩ : CreateJiraTicketParams).description = none →
          req.fields.description = none)
      ∧ (∀ d, (⟨"Fix login", some "   "⟩ : CreateJiraTicketParams).description = some d →
          d = "" ∨ convertOpalMarkdownToJira (jsTrim d) = "" →
          req.fields.description = none)
      ∧ (∀ d, (⟨"Fix login", some "   "⟩ : CreateJiraTicketParams).description = some d →
          jsTrim d ≠ "" →
          req.fields.description =
            some (createDescriptionADF (convertOpalMarkdownToJira (jsTrim d)))
          ∧ (createDescriptionADF (convertOpalMarkdownToJira (jsTrim d))).content =
              [ADFNode.mk "paragraph"
                [ADFText.mk (convertOpalMarkdownToJira (jsTrim d)) "text"]]) :=
  createJiraTicket_description_payload "https://jira.example.com" okProvider
    ⟨"Fix login", some "   "⟩ (by decide)

/-- C6: on a successful provider response the result reports success,
echoes the provider's key and id, builds the ticket URL as
base URL ++ "/browse/" ++ key, and mentions the key in its message. -/
theorem createJiraTicket_success_roundtrip (baseUrl : String) (prov : Provider)
    (params : CreateJiraTicketParams) (resp : CreateIssueResponse)
    (hv : validationError params = none)
    (hc : ∀ req, prov.createIssue req = Except.ok resp) :
    ∃ r : CreateJiraTicketResult,
      (createJiraTicket baseUrl prov params).1 = Except.ok r
      ∧ r.success = true
      ∧ r.ticketKey = resp.key
      ∧ r.ticketId = resp.id
      ∧ r.ticketUrl = baseUrl ++ "/browse/" ++ resp.key
      ∧ strContains r.message resp.key = true := by
  obtain ⟨req, -, -, -, -, -, -, hok, -⟩ := createTicketBody_spec baseUrl prov params
  rw [createJiraTicket_valid_run baseUrl prov params hv]
  refine ⟨_, hok resp (hc req), rfl, rfl, rfl, rfl, ?_⟩
  show strContains ("Successfully created JIRA ticket " ++ resp.key
      ++ " in Petsmart DTO project. Attempted to assign to oruhland@petsmart.com. Check the ticket to verify assignment. View at "
      ++ (baseUrl ++ "/browse/" ++ resp.key)) resp.key = true
  apply strContains_append_left
  apply strContains_append_left
  apply strContains_append_right
  exact strContains_refl resp.key

/-- Witness for C6 at the round-trip instance of the spec: provider
response id 10001 / key DHK-123 and base URL https://jira.example.com
produce ticket URL https://jira.example.com/browse/DHK-123. -/
theorem createJiraTicket_success_roundtrip_witness :
    (∃ r : CreateJiraTicketResult,
      (createJiraTicket "https://jira.example.com" okProvider ⟨"Fix login", none⟩).1 =
        Except.ok r
      ∧ r.success = true
      ∧ r.ticketKey = "DHK-123"
      ∧ r.ticketId = "10001"
      ∧ r.ticketUrl = "https://jira.example.com" ++ "/browse/" ++ "DHK-123"
      ∧ strContains r.message "DHK-123" = true)
    ∧ (createJiraTicket "https://jira.example.com" okProvider ⟨"Fix login", none⟩).1 =
        Except.ok
          ⟨true, "DHK-123", "https://jira.example.com/browse/DHK-123", "10001",
            "Successfully created JIRA ticket DHK-123 in Petsmart DTO project. Attempted to assign to oruhland@petsmart.com. Check the ticket to verify assignment. View at https://jira.example.com/browse/DHK-123"⟩ := by
  constructor
  · exact createJiraTicket_success_roundtrip "https://jira.example.com" okProvider
      ⟨"Fix login", none⟩
      ⟨"10001", "DHK-123", "https://jira.example.com/rest/api/3/issue/10001"⟩
      (by decide) (fun _ => rfl)
  · rfl

/-- C7: in `validateJiraConnection` a failing assignee lookup yields
`assigneeFound = false` with the warning appended to the message while
`success` and `projectAccessible` remain true, and the operation performs
exactly the assignee lookup — never an issue creation. -/
theorem validateJiraConnection_assignee_only (prov : Provider) (e : JiraClientError)
    (hl : prov.getUserByEmail PETSMART_ASSIGNEE_EMAIL = Except.error e) :
    (validateJiraConnection prov).1.success = true
    ∧ (validateJiraConnection prov).1.projectAccessible = true
    ∧ (validateJiraConnection prov).1.assigneeFound = false
    ∧ (validateJiraConnection prov).1.message =
        "JIRA connection validated successfully" ++ " (Warning: Could not find user "
          ++ PETSMART_ASSIGNEE_EMAIL ++ ")"
    ∧ (∀ prov2 : Provider, (validateJiraConnection prov2).2 =
        [OutboundCall.userLookup PETSMART_ASSIGNEE_EMAIL]) := by
  refine ⟨?_, ?_, ?_, ?_, ?_⟩
  · unfold validateJiraConnection
    rw [hl]
  · unfold validateJiraConnection
    rw [hl]
  · unfold validateJiraConnection
    rw [hl]
  · unfold validateJiraConnection
    rw [hl]
  · intro prov2
    rcases h2 : prov2.getUserByEmail PETSMART_ASSIGNEE_EMAIL with e2 | u2 <;>
      simp [validateJiraConnection, h2]

/-- Witness for C7 with the 404-failing lookup provider. -/
theorem validateJiraConnection_assignee_only_witness :
    (validateJiraConnection lookupFailProvider).1.success = true
    ∧ (validateJiraConnection lookupFailProvider).1.projectAccessible = true
    ∧ (validateJiraConnection lookupFailProvider).1.assigneeFound = false
    ∧ (validateJiraConnection lookupFailProvider).1.message =
        "JIRA connection validated successfully" ++ " (Warning: Could not find user "
          ++ PETSMART_ASSIGNEE_EMAIL ++ ")"
    ∧ (∀ prov2 : Provider, (validateJiraConnection prov2).2 =
        [OutboundCall.userLookup PETSMART_ASSIGNEE_EMAIL]) :=
  validateJiraConnection_assignee_only lookupFailProvider
    ⟨"User with email " ++ PETSMART_ASSIGNEE_EMAIL ++ " not found", 404⟩ rfl

/-- C5: the error classifier is total over all integer statuses: anything
outside the five diagnosed codes (0 included) yields the generic
failed-to-create message wrapping the raw detail; a no-HTTP-response
failure is intercepted as status 0 carrying the distinct transport
message, and its classification contains no status-specific diagnosis;
every classified error is a non-empty diagnosis with the original
technical message appended after it. -/
theorem classifyJiraError_total_and_preserving (m : String) (s : Int)
    (e : JiraClientError) :
    (¬(s = 400 ∨ s = 401 ∨ s = 403 ∨ s = 404 ∨ s = 429) →
      classifyJiraError ⟨m, s⟩ = "Failed to create JIRA ticket in DEX project: " ++ m)
    ∧ interceptError HttpFailure.noResponse =
        ⟨"Network error: Unable to reach JIRA server", 0⟩
    ∧ classifyJiraError (interceptError HttpFailure.noResponse) =
        "Failed to create JIRA ticket in DEX project: "
          ++ "Network error: Unable to reach JIRA server"
    ∧ strContains (classifyJiraError (interceptError HttpFailure.noResponse))
        "Invalid request data" = false
    ∧ strContains (classifyJiraError (interceptError HttpFailure.noResponse))
        "Authentication" = false
    ∧ strContains (classifyJiraError (interceptError HttpFailure.noResponse))
        "Access denied" = false
    ∧ strContains (classifyJiraError (interceptError HttpFailure.noResponse))
        "not found" = false
    ∧ strContains (classifyJiraError (interceptError HttpFailure.noResponse))
        "Rate limit" = false
    ∧ classifyJiraError e = classifyJiraError ⟨"", e.status⟩ ++ e.message
    ∧ classifyJiraError ⟨"", e.status⟩ ≠ "" := by
  refine ⟨?_, rfl, by decide, by decide, by decide, by decide, by decide, by decide,
    classifyJiraError_append e.message e.status, classifyJiraError_empty_ne e.status⟩
  intro h
  push_neg at h
  obtain ⟨h1, h2, h3, h4, h5⟩ := h
  simp [classifyJiraError, h1, h2, h3, h4, h5]

/-- Witness for C5: status 500 falls into the generic bucket, and the 418
classification appends the technical message after the diagnosis. -/
theorem classifyJiraError_total_and_preserving_witness :
    classifyJiraError ⟨"X", 500⟩ = "Failed to create JIRA ticket in DEX project: " ++ "X"
    ∧ classifyJiraError ⟨"X", 418⟩ = classifyJiraError ⟨"", 418⟩ ++ "X" := by
  have h := classifyJiraError_total_and_preserving "X" 500 (⟨"X", 418⟩ : JiraClientError)
  exact ⟨h.1 (by decide), h.2.2.2.2.2.2.2.2.1⟩

/-- C4 (amended): a failing provider call makes `createJiraTicket` raise
the classified error; for statuses 400, 403 and 404 the classified text
contains the configured project key, and for each of the five diagnosed
statuses it contains the status-specific theme keyword and the technical
message — but for 401 and 429 the project key is absent from the fixed
text (see the counterexample). -/
theorem createJiraTicket_error_classification_amended (X baseUrl : String)
    (prov : Provider) (params : CreateJiraTicketParams) (err : JiraClientError)
    (hv : validationError params = none)
    (hfail : ∀ req, prov.createIssue req = Except.error err) :
    (createJiraTicket baseUrl prov params).1 = Except.error (classifyJiraError err)
    ∧ (∀ s : Int, s = 400 ∨ s = 403 ∨ s = 404 →
        strContains (classifyJiraError ⟨X, s⟩) PETSMART_PROJECT_KEY = true)
    ∧ strContains (classifyJiraError ⟨X, 400⟩) "Invalid request data" = true
    ∧ strContains (classifyJiraError ⟨X, 401⟩) "Authentication" = true
    ∧ strContains (classifyJiraError ⟨X, 403⟩) "Access denied" = true
    ∧ strContains (classifyJiraError ⟨X, 404⟩) "not found" = true
    ∧ strContains (classifyJiraError ⟨X, 429⟩) "Rate limit" = true
    ∧ (∀ s : Int, s = 400 ∨ s = 401 ∨ s = 403 ∨ s = 404 ∨ s = 429 →
        strContains (classifyJiraError ⟨X, s⟩) X = true) := by
  refine ⟨?_, ?_, ?_, ?_, ?_, ?_, ?_, ?_⟩
  · obtain ⟨req, -, -, -, -, -, -, -, herr⟩ := createTicketBody_spec baseUrl prov params
    rw [createJiraTicket_valid_run baseUrl prov params hv]
    exact herr err (hfail req)
  · rintro s (rfl | rfl | rfl) <;>
      (rw [classifyJiraError_append]
       exact strContains_append_left _ _ _ (by decide))
  · rw [classifyJiraError_append]
    exact strContains_append_left _ _ _ (by decide)
  · rw [classifyJiraError_append]
    exact strContains_append_left _ _ _ (by decide)
  · rw [classifyJiraError_append]
    exact strContains_append_left _ _ _ (by decide)
  · rw [classifyJiraError_append]
    exact strContains_append_left _ _ _ (by decide)
  · rw [classifyJiraError_append]
    exact strContains_append_left _ _ _ (by decide)
  · rintro s (rfl | rfl | rfl | rfl | rfl) <;>
      (rw [classifyJiraError_append]
       exact strContains_append_right _ _ _ (strContains_refl X))

/-- Witness for C4 (amended) with a provider failing at status 400 and
message "X". -/
theorem createJiraTicket_error_classification_amended_witness :
    ((createJiraTicket "https://jira.example.com" (createFailProvider ⟨"X", 400⟩)
        ⟨"Fix login", none⟩).1 = Except.error (classifyJiraError ⟨"X", 400⟩))
    ∧ (∀ s : Int, s = 400 ∨ s = 403 ∨ s = 404 →
        strContains (classifyJiraError ⟨"X", s⟩) PETSMART_PROJECT_KEY = true)
    ∧ strContains (classifyJiraError ⟨"X", 400⟩) "Invalid request data" = true
    ∧ strContains (classifyJiraError ⟨"X", 401⟩) "Authentication" = true
    ∧ strContains (classifyJiraError ⟨"X", 403⟩) "Access denied" = true
    ∧ strContains (classifyJiraError ⟨"X", 404⟩) "not found" = true
    ∧ strContains (classifyJiraError ⟨"X", 429⟩) "Rate limit" = true
    ∧ (∀ s : Int, s = 400 ∨ s = 401 ∨ s = 403 ∨ s = 404 ∨ s = 429 →
        strContains (classifyJiraError ⟨"X", s⟩) "X" = true) :=
  createJiraTicket_error_classification_amended "X" "https://jira.example.com"
    (createFailProvider ⟨"X", 400⟩) ⟨"Fix login", none⟩ ⟨"X", 400⟩
    (by decide) (fun _ => rfl)

/-- Counterexample to C4 as stated: for status 401 (and likewise 429)
with technical message "X", the error raised by `createJiraTicket`
contains the theme keyword and the technical message but does not contain
the configured project key. -/
theorem createJiraTicket_401_no_project_key :
    (createJiraTicket "https://jira.example.com" (createFailProvider ⟨"X", 401⟩)
        ⟨"Fix login", none⟩).1 = Except.error (classifyJiraError ⟨"X", 401⟩)
    ∧ strContains (classifyJiraError ⟨"X", 401⟩) "Authentication" = true
    ∧ strContains (classifyJiraError ⟨"X", 401⟩) "X" = true
    ∧ strContains (classifyJiraError ⟨"X", 401⟩) PETSMART_PROJECT_KEY = false
    ∧ strContains (classifyJiraError ⟨"X", 429⟩) PETSMART_PROJECT_KEY = false := by
  exact ⟨rfl, by decide, by decide, by decide, by decide⟩

/-- C10: the checkbox normalization rewrites every line of the forms
`- [ ] text`, `- [x] text`, `* [ ] text`, `* [x] text` (text non-empty,
not starting with whitespace) to `[] text`, so after conversion checked
and unchecked items are identical — the checked state is discarded. -/
theorem lineCheckbox_normalizes_action_items (marker state c : Char) (t : List Char)
    (hm : marker = '-' ∨ marker = '*') (hs : state = ' ' ∨ state = 'x')
    (hc : c.isWhitespace = false) (ht : '\n' ∉ t) :
    lineCheckbox (marker :: ' ' :: '[' :: state :: ']' :: ' ' :: c :: t) =
        '[' :: ']' :: ' ' :: c :: t
    ∧ convertOpalMarkdownToJira ⟨marker :: ' ' :: '[' :: ' ' :: ']' :: ' ' :: c :: t⟩ =
        convertOpalMarkdownToJira ⟨marker :: ' ' :: '[' :: 'x' :: ']' :: ' ' :: c :: t⟩ := by
  have key : ∀ st : Char, st = ' ' ∨ st = 'x' →
      lineCheckbox (marker :: ' ' :: '[' :: st :: ']' :: ' ' :: c :: t) =
        '[' :: ']' :: ' ' :: c :: t := by
    intro st hst
    rcases hm with rfl | rfl <;> rcases hst with rfl | rfl <;>
      simp [lineCheckbox, List.dropWhile_cons, hc,
        (by decide : ('-' : Char).isWhitespace = false),
        (by decide : ('*' : Char).isWhitespace = false),
        (by decide : (' ' : Char).isWhitespace = true),
        (by decide : ('[' : Char).isWhitespace = false)]
  have hcn : ('\n' : Char) ≠ c := by
    intro he
    rw [← he] at hc
    exact absurd hc (by decide)
  have hsplit : ∀ st : Char, st ≠ '\n' →
      checkboxNorm (marker :: ' ' :: '[' :: st :: ']' :: ' ' :: c :: t) =
        lineCheckbox (marker :: ' ' :: '[' :: st :: ']' :: ' ' :: c :: t) := by
    intro st hst
    apply checkboxNorm_single
    intro hmem
    rcases hm with rfl | rfl <;>
      simp only [List.mem_cons] at hmem <;>
      rcases hmem with h | h | h | h | h | h | h | h <;>
      first
        | exact absurd h (by decide)
        | exact hst h.symm
        | exact hcn h
        | exact ht h
  refine ⟨key state hs, ?_⟩
  unfold convertOpalMarkdownToJira
  rw [show (String.mk (marker :: ' ' :: '[' :: ' ' :: ']' :: ' ' :: c :: t)).data
        = marker :: ' ' :: '[' :: ' ' :: ']' :: ' ' :: c :: t from rfl,
      show (String.mk (marker :: ' ' :: '[' :: 'x' :: ']' :: ' ' :: c :: t)).data
        = marker :: ' ' :: '[' :: 'x' :: ']' :: ' ' :: c :: t from rfl,
      hsplit ' ' (by decide), hsplit 'x' (by decide),
      key ' ' (Or.inl rfl), key 'x' (Or.inr rfl)]

/-- Witness for C10: the concrete line `- [x] Buy milk` becomes
`[] Buy milk`, identically to its unchecked variant. -/
theorem lineCheckbox_normalizes_action_items_witness :
    lineCheckbox ('-' :: ' ' :: '[' :: 'x' :: ']' :: ' ' :: 'B' :: "uy milk".data) =
        '[' :: ']' :: ' ' :: 'B' :: "uy milk".data
    ∧ convertOpalMarkdownToJira ⟨'-' :: ' ' :: '[' :: ' ' :: ']' :: ' ' :: 'B' :: "uy milk".data⟩ =
        convertOpalMarkdownToJira ⟨'-' :: ' ' :: '[' :: 'x' :: ']' :: ' ' :: 'B' :: "uy milk".data⟩ :=
  lineCheckbox_normalizes_action_items '-' 'x' 'B' "uy milk".data
    (Or.inl rfl) (Or.inr rfl) (by decide) (by decide)
